import Mathlib

/-!
Verification of the source-control provider library: a shallow embedding of
`packages/control-plane/src/source-control/errors.ts` (the error classifier)
and of the GitHub provider (`github-provider.ts`), together with theorems
about the classification and provider behaviour.

Modelling conventions:
* A JavaScript `Error` value is modelled by `JSError`, keeping exactly the
  fields the code reads (`name`, `message`).
* A JavaScript `unknown` thrown value is modelled by `RawError`: either an
  `Error` instance or some other value (carried as its string rendering).
* `String.prototype.toLowerCase` is modelled character-wise with
  `Char.toLower`, `String.prototype.includes` as a contiguous-run test on
  the character list.
* The provider methods perform HTTP calls through external helpers
  (`fetchWithTimeout`, `generateInstallationToken`); each call's outcome is
  passed to the model as an explicit argument (`FetchOutcome` /
  `Except RawError String`), and `console.warn` lines are returned as data.
-/

/-- A JavaScript `Error` value, keeping only the fields the code reads. -/
structure JSError where
  name : String
  message : String
deriving DecidableEq

/-- A JavaScript `unknown` thrown value: an `Error` instance
(`instanceof Error` succeeds) or any other value. -/
inductive RawError where
  | ofError (e : JSError)
  | nonError (value : String)
deriving DecidableEq

/-- `export type SourceControlErrorType = "transient" | "permanent"`. -/
inductive SourceControlErrorType where
  | transient
  | permanent
deriving DecidableEq

/-- The `SourceControlProviderError` class: `message` (from `Error`),
`errorType`, optional `httpStatus`, optional `cause`. -/
structure SourceControlProviderError where
  message : String
  errorType : SourceControlErrorType
  httpStatus : Option Nat
  cause : Option JSError
deriving DecidableEq

/-- Character-wise model of JavaScript `String.prototype.toLowerCase`. -/
def jsToLowerCase (s : String) : String :=
  String.mk (s.data.map Char.toLower)

/-- Contiguous-occurrence test on character lists: does `sub` occur as a
contiguous run inside `l`? -/
def listIsInfixOf (sub l : List Char) : Bool :=
  match l with
  | [] => sub.isEmpty
  | b :: t => sub.isPrefixOf (b :: t) || listIsInfixOf sub t

/-- Model of JavaScript `s.includes(sub)`. -/
def jsIncludes (s sub : String) : Bool :=
  listIsInfixOf sub.data s.data

/-- `SourceControlProviderError.isTransientStatus`:
`status === 429 || status === 502 || status === 503 || status === 504`. -/
def SourceControlProviderError.isTransientStatus (status : Nat) : Bool :=
  status == 429 || status == 502 || status == 503 || status == 504

/-- `SourceControlProviderError.isTransientNetworkError`: for an `Error`,
lower-case the message and test the seven fixed substrings; any other
value classifies as `false`. -/
def SourceControlProviderError.isTransientNetworkError (error : RawError) : Bool :=
  match error with
  | .ofError e =>
    let message := jsToLowerCase e.message
    jsIncludes message ("fetch failed") ||
    jsIncludes message ("etimedout") ||
    jsIncludes message ("econnreset") ||
    jsIncludes message ("econnrefused") ||
    jsIncludes message ("network") ||
    jsIncludes message ("timeout") ||
    jsIncludes message ("aborted")
  | .nonError _ => false

/-- The fixed substring table of `isTransientNetworkError`, as a list, for
stating properties about it. -/
def transientNetworkSubstrings : List String :=
  ["fetch failed", "etimedout", "econnreset", "econnrefused", "network", "timeout", "aborted"]

/-- The expression `error instanceof Error ? error : undefined` used for the
`cause` argument in `fromFetchError`. -/
def errorAsCause (error : RawError) : Option JSError :=
  match error with
  | .ofError e => some e
  | .nonError _ => none

/-- `SourceControlProviderError.fromFetchError`: classify by HTTP status when
available, otherwise by the error message. -/
def SourceControlProviderError.fromFetchError (message : String) (error : RawError)
    (status : Option Nat) : SourceControlProviderError :=
  match status with
  | some s =>
    { message := message
      errorType :=
        if SourceControlProviderError.isTransientStatus s
        then SourceControlErrorType.transient
        else SourceControlErrorType.permanent
      httpStatus := some s
      cause := errorAsCause error }
  | none =>
    { message := message
      errorType :=
        if SourceControlProviderError.isTransientNetworkError error
        then SourceControlErrorType.transient
        else SourceControlErrorType.permanent
      httpStatus := none
      cause := errorAsCause error }

/-- Auth context passed to provider operations (`auth.token` is the only
field read). -/
structure SourceControlAuthContext where
  token : String
deriving DecidableEq

/-- The `config.repository` sub-object of `CreatePullRequestConfig`. -/
structure RepositoryRef where
  owner : String
  rname : String
deriving DecidableEq

/-- `CreatePullRequestConfig`, keeping the fields `createPullRequest` reads.
Optional fields are `Option`-valued. -/
structure CreatePullRequestConfig where
  repository : RepositoryRef
  title : String
  body : String
  sourceBranch : String
  targetBranch : String
  draft : Bool
  labels : Option (List String)
  reviewers : Option (List String)
deriving DecidableEq

/-- `CreatePullRequestResult["state"]`: the four values the mapping in
`createPullRequest` produces (`open` is a Lean keyword, hence `opened`). -/
inductive PullRequestState where
  | opened
  | closed
  | merged
  | draft
deriving DecidableEq

/-- `CreatePullRequestResult`. -/
structure CreatePullRequestResult where
  id : Nat
  webUrl : String
  apiUrl : String
  state : PullRequestState
  sourceBranch : String
  targetBranch : String
deriving DecidableEq

/-- The JSON body of a successful GitHub create-pull response, keeping the
fields the code reads (`head.ref` and `base.ref` flattened). -/
structure GitHubPullResponseData where
  number : Nat
  html_url : String
  url : String
  state : String
  draft : Bool
  merged : Bool
  headRef : String
  baseRef : String
deriving DecidableEq

/-- Outcome of one `fetchWithTimeout` call: a response with `ok` true and
parsed body `α`, a response with `ok` false (status and body text), or a
thrown value. -/
inductive FetchOutcome (α : Type) where
  | ok (data : α)
  | httpError (status : Nat) (bodyText : String)
  | thrown (e : RawError)
deriving DecidableEq

/-- Whether a fetch outcome is a failure (non-ok response or thrown value). -/
def FetchOutcome.isFailure {α : Type} (o : FetchOutcome α) : Bool :=
  match o with
  | .ok _ => false
  | .httpError _ _ => true
  | .thrown _ => true

/-- A value propagated out of a provider method by `throw`: either a
classified `SourceControlProviderError` or an unclassified raw value. -/
inductive ThrownValue where
  | classified (e : SourceControlProviderError)
  | unclassified (e : RawError)
deriving DecidableEq

/-- `GitHubSourceControlProvider.addLabels`: best-effort; returns the
`console.warn` lines it emits and never throws. -/
def GitHubSourceControlProvider.addLabels (prNumber : Nat) (labels : List String)
    (outcome : FetchOutcome Unit) : List String :=
  match outcome with
  | .ok _ => []
  | .httpError status _ =>
    ["Failed to add labels to PR #" ++ toString prNumber ++ ": " ++ toString status]
  | .thrown _ =>
    ["Failed to add labels to PR #" ++ toString prNumber ++ ":"]

/-- `GitHubSourceControlProvider.requestReviewers`: best-effort; returns the
`console.warn` lines it emits and never throws. -/
def GitHubSourceControlProvider.requestReviewers (prNumber : Nat) (reviewers : List String)
    (outcome : FetchOutcome Unit) : List String :=
  match outcome with
  | .ok _ => []
  | .httpError status _ =>
    ["Failed to request reviewers for PR #" ++ toString prNumber ++ ": " ++ toString status]
  | .thrown _ =>
    ["Failed to request reviewers for PR #" ++ toString prNumber ++ ":"]

/-- `GitHubSourceControlProvider.createPullRequest`, with the outcomes of its
three HTTP calls (pull creation, label attachment, reviewer request) passed
explicitly. Returns the result together with the emitted warn lines, or the
thrown value. -/
def GitHubSourceControlProvider.createPullRequest (config : CreatePullRequestConfig)
    (prOutcome : FetchOutcome GitHubPullResponseData)
    (labelOutcome reviewerOutcome : FetchOutcome Unit) :
    Except ThrownValue (CreatePullRequestResult × List String) :=
  match prOutcome with
  | .thrown e => Except.error (ThrownValue.unclassified e)
  | .httpError status text =>
    Except.error (ThrownValue.classified
      (SourceControlProviderError.fromFetchError
        ("Failed to create PR: " ++ toString status ++ " " ++ text)
        (RawError.ofError { name := "Error", message := text })
        (some status)))
  | .ok data =>
    let state : PullRequestState :=
      if data.draft then PullRequestState.draft
      else if data.merged then PullRequestState.merged
      else if data.state = "open" then PullRequestState.opened
      else if data.state = "closed" then PullRequestState.closed
      else PullRequestState.opened
    let result : CreatePullRequestResult :=
      { id := data.number
        webUrl := data.html_url
        apiUrl := data.url
        state := state
        sourceBranch := data.headRef
        targetBranch := data.baseRef }
    let labelLogs : List String :=
      match config.labels with
      | some ls =>
        if 0 < ls.length
        then GitHubSourceControlProvider.addLabels data.number ls labelOutcome
        else []
      | none => []
    let reviewerLogs : List String :=
      match config.reviewers with
      | some rs =>
        if 0 < rs.length
        then GitHubSourceControlProvider.requestReviewers data.number rs reviewerOutcome
        else []
      | none => []
    Except.ok (result, labelLogs ++ reviewerLogs)

/-- `GitHubProviderConfig["appConfig"]`: its fields are never inspected by
the provider, so it is modelled as a field-free placeholder. -/
structure GitHubAppConfig where
deriving DecidableEq

/-- `GitPushAuthContext` as built by `generatePushAuth`. -/
structure GitPushAuthContext where
  authType : String
  token : String
deriving DecidableEq

/-- The expression
`error instanceof Error ? error.message : String(error)`. -/
def rawErrorText (e : RawError) : String :=
  match e with
  | .ofError je => je.message
  | .nonError v => v

/-- `GitHubSourceControlProvider.generatePushAuth`, with the outcome of the
external `generateInstallationToken` call passed explicitly. -/
def GitHubSourceControlProvider.generatePushAuth (appConfig : Option GitHubAppConfig)
    (tokenOutcome : Except RawError String) :
    Except SourceControlProviderError GitPushAuthContext :=
  match appConfig with
  | none =>
    Except.error
      { message := "GitHub App not configured - cannot generate push auth"
        errorType := SourceControlErrorType.permanent
        httpStatus := none
        cause := none }
  | some _ =>
    match tokenOutcome with
    | .ok token => Except.ok { authType := "app", token := token }
    | .error e =>
      Except.error
        (SourceControlProviderError.fromFetchError
          ("Failed to generate GitHub App token: " ++ rawErrorText e)
          e
          none)

/-- The state field of the result of a successful `createPullRequest`. -/
def createdPullRequestState (config : CreatePullRequestConfig)
    (data : GitHubPullResponseData) (labelOutcome reviewerOutcome : FetchOutcome Unit) :
    Option PullRequestState :=
  (GitHubSourceControlProvider.createPullRequest config (FetchOutcome.ok data)
      labelOutcome reviewerOutcome).toOption.map (fun p => p.1.state)

/-- `List.isPrefixOf` is preserved by mapping a function over both lists. -/
theorem isPrefixOf_map_of_isPrefixOf (f : Char → Char) :
    ∀ (sub l : List Char), sub.isPrefixOf l = true →
      (sub.map f).isPrefixOf (l.map f) = true := by
  intro sub
  induction sub with
  | nil => intro l _; simp [List.isPrefixOf]
  | cons a as ih =>
    intro l h
    cases l with
    | nil => simp [List.isPrefixOf] at h
    | cons b bs =>
      simp only [List.isPrefixOf, Bool.and_eq_true, beq_iff_eq] at h
      simp only [List.map, List.isPrefixOf, Bool.and_eq_true, beq_iff_eq]
      exact ⟨by rw [h.1], ih bs h.2⟩

/-- `listIsInfixOf` is preserved by mapping a function over both lists. -/
theorem listIsInfixOf_map_of_listIsInfixOf (f : Char → Char) :
    ∀ (sub l : List Char), listIsInfixOf sub l = true →
      listIsInfixOf (sub.map f) (l.map f) = true := by
  intro sub l
  induction l with
  | nil =>
    intro h
    simp only [listIsInfixOf, List.isEmpty_iff] at h
    simp [h, listIsInfixOf]
  | cons b bs ih =>
    intro h
    simp only [listIsInfixOf, Bool.or_eq_true] at h
    rcases h with h | h
    · simp only [List.map, listIsInfixOf, Bool.or_eq_true]
      exact Or.inl (isPrefixOf_map_of_isPrefixOf f sub (b :: bs) h)
    · simp only [List.map, listIsInfixOf, Bool.or_eq_true]
      exact Or.inr (ih h)

/-- If `s` includes `sub` and `sub` is fixed by character lower-casing, then
the lower-cased `s` still includes `sub`. -/
theorem jsIncludes_jsToLowerCase_of_jsIncludes (s sub : String)
    (hfix : sub.data.map Char.toLower = sub.data)
    (h : jsIncludes s sub = true) :
    jsIncludes (jsToLowerCase s) sub = true := by
  unfold jsIncludes at h ⊢
  have := listIsInfixOf_map_of_listIsInfixOf Char.toLower sub.data s.data h
  rw [hfix] at this
  exact this

/-- Character lists that agree pointwise after lower-casing have the same
lower-cased image. -/
theorem map_toLower_eq_of_pointwise :
    ∀ (l1 l2 : List Char),
      List.Forall₂ (fun c d => Char.toLower c = Char.toLower d) l1 l2 →
      l1.map Char.toLower = l2.map Char.toLower := by
  intro l1 l2 h
  induction h with
  | nil => rfl
  | cons hcd _ ih => simp only [List.map]; rw [hcd, ih]

/-- Strings whose characters agree after lower-casing have the same
`jsToLowerCase` image. -/
theorem jsToLowerCase_eq_of_pointwise (s t : String)
    (h : List.Forall₂ (fun c d => Char.toLower c = Char.toLower d) s.data t.data) :
    jsToLowerCase s = jsToLowerCase t := by
  unfold jsToLowerCase
  congr 1
  exact map_toLower_eq_of_pointwise s.data t.data h

/-- `isTransientStatus` holds exactly on 429, 502, 503, 504. -/
theorem isTransientStatus_eq_true_iff (status : Nat) :
    SourceControlProviderError.isTransientStatus status = true ↔
      (status = 429 ∨ status = 502 ∨ status = 503 ∨ status = 504) := by
  simp only [SourceControlProviderError.isTransientStatus, Bool.or_eq_true, beq_iff_eq]
  tauto

/-- `isTransientNetworkError` on an `Error` holds exactly when the
lower-cased message includes one of the seven fixed substrings. -/
theorem isTransientNetworkError_ofError_iff (e : JSError) :
    SourceControlProviderError.isTransientNetworkError (RawError.ofError e) = true ↔
      ∃ sub ∈ transientNetworkSubstrings, jsIncludes (jsToLowerCase e.message) sub = true := by
  simp only [SourceControlProviderError.isTransientNetworkError, transientNetworkSubstrings,
    Bool.or_eq_true, List.mem_cons, List.not_mem_nil, or_false, exists_eq_or_imp,
    exists_eq_left]
  tauto

/-- C1: with a status code supplied, `fromFetchError` classifies as
`transient` exactly when the status is 429, 502, 503 or 504, and as
`permanent` for every other status. -/
theorem fromFetchError_status_classification (message : String) (error : RawError)
    (status : Nat) :
    ((SourceControlProviderError.fromFetchError message error (some status)).errorType
        = SourceControlErrorType.transient ↔
      (status = 429 ∨ status = 502 ∨ status = 503 ∨ status = 504)) ∧
    ((SourceControlProviderError.fromFetchError message error (some status)).errorType
        = SourceControlErrorType.permanent ↔
      ¬(status = 429 ∨ status = 502 ∨ status = 503 ∨ status = 504)) := by
  rw [← isTransientStatus_eq_true_iff]
  by_cases h : SourceControlProviderError.isTransientStatus status = true
  · simp [SourceControlProviderError.fromFetchError, h]
  · simp [SourceControlProviderError.fromFetchError, h]

/-- C1 check at a concrete input: status 503 yields `transient`. -/
theorem fromFetchError_status_classification_witness :
    (SourceControlProviderError.fromFetchError ("m") (RawError.nonError ("v"))
        (some 503)).errorType = SourceControlErrorType.transient :=
  (fromFetchError_status_classification ("m") (RawError.nonError ("v")) 503).1.mpr
    (by tauto)

/-- C2: with no status code, an `Error` classifies as `transient` exactly
when its lower-cased message includes one of the seven fixed substrings, and
a non-`Error` value always classifies as `permanent`. -/
theorem fromFetchError_message_classification (message : String) (e : JSError)
    (v : String) :
    ((SourceControlProviderError.fromFetchError message (RawError.ofError e)
          none).errorType = SourceControlErrorType.transient ↔
      ∃ sub ∈ transientNetworkSubstrings,
        jsIncludes (jsToLowerCase e.message) sub = true) ∧
    (SourceControlProviderError.fromFetchError message (RawError.nonError v)
        none).errorType = SourceControlErrorType.permanent := by
  constructor
  · rw [← isTransientNetworkError_ofError_iff]
    by_cases h :
        SourceControlProviderError.isTransientNetworkError (RawError.ofError e) = true
    · simp [SourceControlProviderError.fromFetchError, h]
    · simp [SourceControlProviderError.fromFetchError, h]
  · simp [SourceControlProviderError.fromFetchError,
      SourceControlProviderError.isTransientNetworkError]

/-- C3: with a status code supplied, `errorType` does not depend on the raw
error; in particular status 503 with message "invalid token" still yields
`transient`. -/
theorem fromFetchError_status_ignores_raw_error (message : String)
    (e1 e2 : RawError) (status : Nat) :
    (SourceControlProviderError.fromFetchError message e1 (some status)).errorType
      = (SourceControlProviderError.fromFetchError message e2 (some status)).errorType ∧
    (SourceControlProviderError.fromFetchError ("Failed")
        (RawError.ofError { name := "Error", message := "invalid token" })
        (some 503)).errorType = SourceControlErrorType.transient :=
  ⟨rfl, rfl⟩

/-- C4: `fromFetchError` is a total function and its `errorType` is exactly
one of `transient` or `permanent`. -/
theorem fromFetchError_total_binary (message : String) (error : RawError)
    (status : Option Nat) :
    ((SourceControlProviderError.fromFetchError message error status).errorType
        = SourceControlErrorType.transient ∧
      (SourceControlProviderError.fromFetchError message error status).errorType
        ≠ SourceControlErrorType.permanent) ∨
    ((SourceControlProviderError.fromFetchError message error status).errorType
        = SourceControlErrorType.permanent ∧
      (SourceControlProviderError.fromFetchError message error status).errorType
        ≠ SourceControlErrorType.transient) := by
  cases heq : (SourceControlProviderError.fromFetchError message error status).errorType with
  | transient => exact Or.inl ⟨rfl, by simp⟩
  | permanent => exact Or.inr ⟨rfl, by simp⟩

/-- C4 check at a concrete input. -/
theorem fromFetchError_total_binary_witness :
    ((SourceControlProviderError.fromFetchError ("m") (RawError.nonError ("v"))
          none).errorType = SourceControlErrorType.transient ∧
      (SourceControlProviderError.fromFetchError ("m") (RawError.nonError ("v"))
          none).errorType ≠ SourceControlErrorType.permanent) ∨
    ((SourceControlProviderError.fromFetchError ("m") (RawError.nonError ("v"))
          none).errorType = SourceControlErrorType.permanent ∧
      (SourceControlProviderError.fromFetchError ("m") (RawError.nonError ("v"))
          none).errorType ≠ SourceControlErrorType.transient) :=
  fromFetchError_total_binary ("m") (RawError.nonError ("v")) none

/-- C5: message-driven classification is case-insensitive (errors whose
messages agree character-wise up to letter case classify alike) and is a
pure containment test (a message that includes one of the listed substrings
anywhere classifies as transient). -/
theorem isTransientNetworkError_case_insensitive_contains
    (n1 n2 msg msg' sub : String) :
    (List.Forall₂ (fun c d => Char.toLower c = Char.toLower d) msg.data msg'.data →
      SourceControlProviderError.isTransientNetworkError
          (RawError.ofError { name := n1, message := msg })
        = SourceControlProviderError.isTransientNetworkError
          (RawError.ofError { name := n2, message := msg' })) ∧
    (sub ∈ transientNetworkSubstrings → jsIncludes msg sub = true →
      SourceControlProviderError.isTransientNetworkError
          (RawError.ofError { name := n1, message := msg }) = true) := by
  constructor
  · intro h
    have hlow : jsToLowerCase msg = jsToLowerCase msg' :=
      jsToLowerCase_eq_of_pointwise msg msg' h
    simp only [SourceControlProviderError.isTransientNetworkError]
    rw [hlow]
  · intro hsub hin
    have hfix : sub.data.map Char.toLower = sub.data := by
      simp only [transientNetworkSubstrings, List.mem_cons, List.not_mem_nil,
        or_false] at hsub
      rcases hsub with h | h | h | h | h | h | h <;> (subst h; decide)
    have hlow : jsIncludes (jsToLowerCase msg) sub = true :=
      jsIncludes_jsToLowerCase_of_jsIncludes msg sub hfix hin
    rw [isTransientNetworkError_ofError_iff]
    exact ⟨sub, hsub, hlow⟩

/-- C5 check at concrete inputs: a case-variant pair classifies alike, and a
message embedding "timeout" in unrelated text is transient. -/
theorem isTransientNetworkError_case_insensitive_contains_witness :
    SourceControlProviderError.isTransientNetworkError
        (RawError.ofError { name := "E", message := "TIMEOUT x" })
      = SourceControlProviderError.isTransientNetworkError
        (RawError.ofError { name := "F", message := "timeout X" }) ∧
    SourceControlProviderError.isTransientNetworkError
        (RawError.ofError { name := "E", message := "xxtimeoutyy" }) = true :=
  ⟨(isTransientNetworkError_case_insensitive_contains
      ("E") ("F") ("TIMEOUT x") ("timeout X") ("timeout")).1 (by decide),
   (isTransientNetworkError_case_insensitive_contains
      ("E") ("F") ("xxtimeoutyy") ("m") ("timeout")).2 (by decide) (by decide)⟩

/-- C6: `httpStatus` equals the supplied status when one is supplied and is
absent otherwise. -/
theorem fromFetchError_httpStatus (message : String) (error : RawError)
    (status : Nat) :
    (SourceControlProviderError.fromFetchError message error
        (some status)).httpStatus = some status ∧
    (SourceControlProviderError.fromFetchError message error none).httpStatus
      = none :=
  ⟨rfl, rfl⟩

/-- C7 counterexample: for a non-`Error` raw value, nothing is preserved in
`cause` — the classified error's `cause` is absent, so the raw error is not
preserved on every call. -/
theorem fromFetchError_cause_dropped_for_nonError :
    (SourceControlProviderError.fromFetchError ("m") (RawError.nonError ("boom"))
        none).cause = none :=
  rfl

/-- C7 (amended): an `Error` raw value is preserved in `cause`; a non-`Error`
raw value yields an absent `cause`; and the classification never depends on
the preserved data — two `Error` values with the same message (but possibly
different other fields, hence different `cause` values) classify alike. -/
theorem fromFetchError_cause_preservation (message : String) (e e1 e2 : JSError)
    (v : String) (status : Option Nat) :
    (SourceControlProviderError.fromFetchError message (RawError.ofError e)
        status).cause = some e ∧
    (SourceControlProviderError.fromFetchError message (RawError.nonError v)
        status).cause = none ∧
    (e1.message = e2.message →
      (SourceControlProviderError.fromFetchError message (RawError.ofError e1)
          status).errorType
        = (SourceControlProviderError.fromFetchError message (RawError.ofError e2)
            status).errorType) := by
  refine ⟨?_, ?_, ?_⟩
  · cases status <;> rfl
  · cases status <;> rfl
  · intro h
    cases status with
    | some s => rfl
    | none =>
      simp only [SourceControlProviderError.fromFetchError,
        SourceControlProviderError.isTransientNetworkError, h]

/-- C7 check at concrete inputs: two errors sharing a message but differing
elsewhere classify alike while their causes differ. -/
theorem fromFetchError_cause_preservation_witness :
    (SourceControlProviderError.fromFetchError ("m")
        (RawError.ofError { name := "A", message := "net timeouts" }) none).cause
      = some { name := "A", message := "net timeouts" } ∧
    (SourceControlProviderError.fromFetchError ("m") (RawError.nonError ("v"))
        none).cause = none ∧
    (SourceControlProviderError.fromFetchError ("m")
        (RawError.ofError { name := "A", message := "net timeouts" }) none).errorType
      = (SourceControlProviderError.fromFetchError ("m")
          (RawError.ofError { name := "B", message := "net timeouts" }) none).errorType :=
  ⟨(fromFetchError_cause_preservation ("m") { name := "A", message := "net timeouts" }
      { name := "A", message := "net timeouts" } { name := "B", message := "net timeouts" }
      ("v") none).1,
   (fromFetchError_cause_preservation ("m") { name := "A", message := "net timeouts" }
      { name := "A", message := "net timeouts" } { name := "B", message := "net timeouts" }
      ("v") none).2.1,
   (fromFetchError_cause_preservation ("m") { name := "A", message := "net timeouts" }
      { name := "A", message := "net timeouts" } { name := "B", message := "net timeouts" }
      ("v") none).2.2 rfl⟩

/-- C8: when the PR-creation call succeeds, `createPullRequest` returns a
result; the result does not depend on the label/reviewer call outcomes; and
a failing label call with labels requested is logged. -/
theorem createPullRequest_best_effort (config : CreatePullRequestConfig)
    (data : GitHubPullResponseData) (lo ro lo' ro' : FetchOutcome Unit) :
    (∃ result logs,
      GitHubSourceControlProvider.createPullRequest config (FetchOutcome.ok data) lo ro
        = Except.ok (result, logs)) ∧
    ((GitHubSourceControlProvider.createPullRequest config (FetchOutcome.ok data)
        lo ro).toOption.map Prod.fst
      = (GitHubSourceControlProvider.createPullRequest config (FetchOutcome.ok data)
          lo' ro').toOption.map Prod.fst) ∧
    (∀ ls, config.labels = some ls → 0 < ls.length →
      FetchOutcome.isFailure lo = true →
      ∃ result logs,
        GitHubSourceControlProvider.createPullRequest config (FetchOutcome.ok data) lo ro
          = Except.ok (result, logs) ∧ logs ≠ []) := by
  refine ⟨⟨_, _, rfl⟩, rfl, ?_⟩
  intro ls hls hlen hfail
  refine ⟨_, _, rfl, ?_⟩
  simp only [GitHubSourceControlProvider.createPullRequest, hls, if_pos hlen]
  cases lo with
  | ok u => simp [FetchOutcome.isFailure] at hfail
  | httpError s t => simp [GitHubSourceControlProvider.addLabels]
  | thrown e => simp [GitHubSourceControlProvider.addLabels]

/-- C8 check at a concrete input: a 500 label-call failure after a
successful PR creation still yields a result, with a warn line. -/
theorem createPullRequest_best_effort_witness :
    ∃ result logs,
      GitHubSourceControlProvider.createPullRequest
          { repository := { owner := "o", rname := "r" }, title := "t", body := "b",
            sourceBranch := "s", targetBranch := "m", draft := false,
            labels := some ["bug"], reviewers := none }
          (FetchOutcome.ok
            { number := 1, html_url := "w", url := "u", state := "open",
              draft := false, merged := false, headRef := "h", baseRef := "b" })
          (FetchOutcome.httpError 500 ("oops")) (FetchOutcome.ok ())
        = Except.ok (result, logs) ∧ logs ≠ [] :=
  (createPullRequest_best_effort
      { repository := { owner := "o", rname := "r" }, title := "t", body := "b",
        sourceBranch := "s", targetBranch := "m", draft := false,
        labels := some ["bug"], reviewers := none }
      { number := 1, html_url := "w", url := "u", state := "open",
        draft := false, merged := false, headRef := "h", baseRef := "b" }
      (FetchOutcome.httpError 500 ("oops")) (FetchOutcome.ok ())
      (FetchOutcome.ok ()) (FetchOutcome.ok ())).2.2
    ["bug"] rfl (by decide) rfl

/-- C9: without an `appConfig`, `generatePushAuth` fails with a `permanent`
classified error carrying no `httpStatus`, independently of the token-minting
outcome (so before any minting call); with an `appConfig`, a token-minting
failure is classified through the no-status path of `fromFetchError`. -/
theorem generatePushAuth_appConfig_gate (t t1 t2 : Except RawError String)
    (cfg : GitHubAppConfig) (e : RawError) :
    (∃ err : SourceControlProviderError,
      GitHubSourceControlProvider.generatePushAuth none t = Except.error err ∧
      err.errorType = SourceControlErrorType.permanent ∧ err.httpStatus = none) ∧
    (GitHubSourceControlProvider.generatePushAuth none t1
      = GitHubSourceControlProvider.generatePushAuth none t2) ∧
    (GitHubSourceControlProvider.generatePushAuth (some cfg) (Except.error e)
      = Except.error (SourceControlProviderError.fromFetchError
          ("Failed to generate GitHub App token: " ++ rawErrorText e) e none)) :=
  ⟨⟨_, rfl, rfl, rfl⟩, rfl, rfl⟩

/-- C10: the state of a successfully created pull request follows the fixed
precedence draft > merged > open/closed, defaulting to open on an
unrecognized state string. -/
theorem createPullRequest_state_mapping (config : CreatePullRequestConfig)
    (data : GitHubPullResponseData) (lo ro : FetchOutcome Unit) :
    (data.draft = true →
      createdPullRequestState config data lo ro = some PullRequestState.draft) ∧
    (data.draft = false → data.merged = true →
      createdPullRequestState config data lo ro = some PullRequestState.merged) ∧
    (data.draft = false → data.merged = false → data.state = "open" →
      createdPullRequestState config data lo ro = some PullRequestState.opened) ∧
    (data.draft = false → data.merged = false → data.state = "closed" →
      createdPullRequestState config data lo ro = some PullRequestState.closed) ∧
    (data.draft = false → data.merged = false → data.state ≠ "open" →
      data.state ≠ "closed" →
      createdPullRequestState config data lo ro = some PullRequestState.opened) := by
  refine ⟨?_, ?_, ?_, ?_, ?_⟩
  · intro h1
    simp [createdPullRequestState, GitHubSourceControlProvider.createPullRequest, h1]
    exact ⟨_, ⟨_, rfl⟩, rfl⟩
  · intro h1 h2
    simp [createdPullRequestState, GitHubSourceControlProvider.createPullRequest, h1, h2]
    exact ⟨_, ⟨_, rfl⟩, rfl⟩
  · intro h1 h2 h3
    simp [createdPullRequestState, GitHubSourceControlProvider.createPullRequest, h1, h2, h3]
    exact ⟨_, ⟨_, rfl⟩, rfl⟩
  · intro h1 h2 h3
    simp [createdPullRequestState, GitHubSourceControlProvider.createPullRequest, h1, h2, h3]
    exact ⟨_, ⟨_, rfl⟩, rfl⟩
  · intro h1 h2 h3 h4
    simp [createdPullRequestState, GitHubSourceControlProvider.createPullRequest,
      h1, h2, h3, h4]
    exact ⟨_, ⟨_, rfl⟩, rfl⟩

/-- C10 check at a concrete input: a response with `draft`, `merged` and
`state = "closed"` all set still maps to the draft state. -/
theorem createPullRequest_state_mapping_witness :
    createdPullRequestState
        { repository := { owner := "o", rname := "r" }, title := "t", body := "b",
          sourceBranch := "s", targetBranch := "m", draft := true,
          labels := none, reviewers := none }
        { number := 1, html_url := "w", url := "u", state := "closed",
          draft := true, merged := true, headRef := "h", baseRef := "b" }
        (FetchOutcome.ok ()) (FetchOutcome.ok ())
      = some PullRequestState.draft :=
  (createPullRequest_state_mapping
      { repository := { owner := "o", rname := "r" }, title := "t", body := "b",
        sourceBranch := "s", targetBranch := "m", draft := true,
        labels := none, reviewers := none }
      { number := 1, html_url := "w", url := "u", state := "closed",
        draft := true, merged := true, headRef := "h", baseRef := "b" }
      (FetchOutcome.ok ()) (FetchOutcome.ok ())).1 rfl
